import Mathlib

/-!
Verification of the MLSTM-FCN network builder (`sktime/networks/mlstmfcn.py`).

The module under study composes pre-built deep-learning layer primitives into a
directed acyclic computation graph.  We embed the builder shallowly:

* `MLSTMFCNNetwork` is the configuration record set up by `__init__`;
* `Node` is a symbolic computation-graph handle, one constructor per layer
  primitive the source instantiates, recording the exact hyperparameters the
  source passes to it;
* `build_network` is a direct translation of the method body; Python's
  `seq[i]` indexing is fallible, so it runs in `Option` with `seq[i]?`;
* `outShape` gives the (batchless) tensor shape at each graph node, following
  the framework's documented shape rules for these layers.
-/

set_option autoImplicit false

namespace MLSTMFCN

/-- The configuration fields stored on the `MLSTMFCNNetwork` object by
`__init__`.  `dropout` is a real-valued rate; we use `ℚ`, which hosts every
value the source manipulates (the default `0.8`, the boundary `0`). -/
structure MLSTMFCNNetwork where
  random_state : Int
  dropout : ℚ
  attention : Bool
  dilation_rate : Nat
  filter_sizes : List Nat
  kernel_sizes : List Nat
  lstm_size : Nat
  deriving Repr, DecidableEq

/-- `__init__`: stores each argument in the corresponding field, in the order
of the assignments in the source, and mutates nothing else. -/
def MLSTMFCNNetwork.init (random_state : Int) (dropout : ℚ) (attention : Bool)
    (dilation_rate : Nat) (filter_sizes : List Nat) (kernel_sizes : List Nat)
    (lstm_size : Nat) : MLSTMFCNNetwork :=
  { random_state := random_state
    kernel_sizes := kernel_sizes
    filter_sizes := filter_sizes
    lstm_size := lstm_size
    dropout := dropout
    attention := attention
    dilation_rate := dilation_rate }

/-- The default hyperparameters of `__init__`:
`random_state=0, dropout=0.8, attention=False, dilation_rate=2,
filter_sizes=(64, 128, 64), kernel_sizes=(5, 3, 1), lstm_size=5`. -/
def defaultNetwork : MLSTMFCNNetwork :=
  MLSTMFCNNetwork.init 0 (4 / 5) false 2 [64, 128, 64] [5, 3, 1] 5

/-- A symbolic handle into the framework's computation graph: one constructor
per layer primitive instantiated by `build_network`, recording the arguments
the source passes.  `squeezeExcite` and `attentionLSTM` are the two externally
supplied primitives (`squeeze_excite_block`, `make_attention_lstm`) from the
sibling module `sktime.networks.lstmfcn_layers`, kept opaque here. -/
inductive Node where
  | input (shape : List Nat)
  | permute (dims : List Nat) (src : Node)
  | lstm (units : Nat) (src : Node)
  | attentionLSTM (units : Nat) (src : Node)
  | dropout (rate : ℚ) (src : Node)
  | conv1d (filters kernel dilation : Nat) (padding kernel_init : String) (src : Node)
  | batchNorm (src : Node)
  | activation (name : String) (src : Node)
  | squeezeExcite (src : Node)
  | globalAvgPool1d (src : Node)
  | concatenate (srcs : List Node)
  deriving Repr

/-- Shape of `Permute(dims)`: output axis `i` is input axis `dims[i]` (Keras
`dims` indices are 1-based over the non-batch axes). -/
def permuteShape (dims : List Nat) (s : List Nat) : Option (List Nat) :=
  dims.mapM fun d => s[d - 1]?

/-- Shape of `concatenate` (feature axis, the default `axis=-1`): all inputs
must agree on every axis but the last; the last axes add up. -/
def concatShapes : List (List Nat) → Option (List Nat)
  | [] => none
  | s₀ :: rest =>
    if rest.all (fun s => s.dropLast == s₀.dropLast) then
      match s₀.getLast?, rest.mapM List.getLast? with
      | some l₀, some ls => some (s₀.dropLast ++ [l₀ + ls.sum])
      | _, _ => none
    else none

/-- Modelled from the spec: `squeeze_excite_block` lives in
`sktime.networks.lstmfcn_layers`, which is not part of this source tree.  Per
the spec the block computes a per-channel scalar gate and multiplies it
elementwise across channels, so it preserves the shape of its input. -/
def squeezeExciteShape (s : List Nat) : Option (List Nat) :=
  some s

/-- Modelled from the spec: `make_attention_lstm` lives in
`sktime.networks.lstmfcn_layers`, which is not part of this source tree.  Per
the spec the attention-augmented recurrent cell has output width `units`
(= `lstm_size`), a fixed-length vector — the same output shape as the plain
recurrent cell on a rank-2 (steps × features) input. -/
def attentionCellShape (units : Nat) (s : List Nat) : Option (List Nat) :=
  match s with
  | [_, _] => some [units]
  | _ => none

mutual

/-- The (batchless) output shape of each graph node, following the
framework's shape rules for the layers the source instantiates: a recurrent
cell collapses a (steps × features) input to a vector of width `units`;
`Dropout`, `BatchNormalization` and `Activation` preserve shape; `Conv1D` with
`padding="same"` (stride 1) preserves the number of steps and sets the channel
count to `filters`; `GlobalAveragePooling1D` collapses the step axis. -/
def outShape : Node → Option (List Nat)
  | .input s => some s
  | .permute dims src => (outShape src).bind (permuteShape dims)
  | .lstm units src =>
    match outShape src with
    | some [_, _] => some [units]
    | _ => none
  | .attentionLSTM units src => (outShape src).bind (attentionCellShape units)
  | .dropout _ src => outShape src
  | .conv1d filters _ _ _ _ src =>
    match outShape src with
    | some [t, _] => some [t, filters]
    | _ => none
  | .batchNorm src => outShape src
  | .activation _ src => outShape src
  | .squeezeExcite src => (outShape src).bind squeezeExciteShape
  | .globalAvgPool1d src =>
    match outShape src with
    | some [_, c] => some [c]
    | _ => none
  | .concatenate srcs => (outShapes srcs).bind concatShapes

/-- Output shapes of a list of graph nodes (`none` if any is ill-shaped). -/
def outShapes : List Node → Option (List (List Nat))
  | [] => some []
  | n :: ns =>
    match outShape n, outShapes ns with
    | some s, some ss => some (s :: ss)
    | _, _ => none

end

/-- `build_network(self, input_shape)`, translated statement by statement.
Python raises `IndexError` when `filter_sizes[i]` / `kernel_sizes[i]` is out
of range, so each subscript becomes a fallible `[i]?` read in `Option`. -/
def build_network (self : MLSTMFCNNetwork) (input_shape : List Nat) :
    Option (Node × Node) := do
  let input_layer := Node.input input_shape
  let x := Node.permute [2, 1] input_layer
  let x := if self.attention
    then Node.attentionLSTM self.lstm_size x
    else Node.lstm self.lstm_size x
  let x := Node.dropout self.dropout x
  let f0 ← self.filter_sizes[0]?
  let k0 ← self.kernel_sizes[0]?
  let y := Node.conv1d f0 k0 self.dilation_rate "same" "he_uniform" input_layer
  let y := Node.batchNorm y
  let y := Node.activation "relu" y
  let y := Node.squeezeExcite y
  let f1 ← self.filter_sizes[1]?
  let k1 ← self.kernel_sizes[1]?
  let y := Node.conv1d f1 k1 self.dilation_rate "same" "he_uniform" y
  let y := Node.batchNorm y
  let y := Node.activation "relu" y
  let y := Node.squeezeExcite y
  let f2 ← self.filter_sizes[2]?
  let k2 ← self.kernel_sizes[2]?
  let y := Node.conv1d f2 k2 self.dilation_rate "same" "he_uniform" y
  let y := Node.batchNorm y
  let y := Node.activation "relu" y
  let y := Node.globalAvgPool1d y
  let output_layer := Node.concatenate [x, y]
  return (input_layer, output_layer)

/-- The shape of the output node returned by `build_network`, when the build
succeeds. -/
def builtOutputShape (self : MLSTMFCNNetwork) (input_shape : List Nat) :
    Option (List Nat) :=
  (build_network self input_shape).bind fun p => outShape p.2

example : builtOutputShape defaultNetwork [128, 3] = some [69] := by rfl

/-- The method as seen on the object: a Python method may mutate `self`, so
the translation returns the final `self` together with the result.  The body
of `build_network` contains no assignment to any `self` attribute, so the
object state passes through unchanged. -/
def build_network_method (self : MLSTMFCNNetwork) (input_shape : List Nat) :
    MLSTMFCNNetwork × Option (Node × Node) :=
  (self, build_network self input_shape)

mutual

/-- Replace every attention-augmented recurrent cell in a graph by the plain
recurrent cell of the same width, leaving every other node unchanged. -/
def usePlainCell : Node → Node
  | .input s => .input s
  | .permute dims src => .permute dims (usePlainCell src)
  | .lstm u src => .lstm u (usePlainCell src)
  | .attentionLSTM u src => .lstm u (usePlainCell src)
  | .dropout r src => .dropout r (usePlainCell src)
  | .conv1d f k d p ki src => .conv1d f k d p ki (usePlainCell src)
  | .batchNorm src => .batchNorm (usePlainCell src)
  | .activation a src => .activation a (usePlainCell src)
  | .squeezeExcite src => .squeezeExcite (usePlainCell src)
  | .globalAvgPool1d src => .globalAvgPool1d (usePlainCell src)
  | .concatenate srcs => .concatenate (usePlainCells srcs)

/-- `usePlainCell` on each node of a list. -/
def usePlainCells : List Node → List Node
  | [] => []
  | n :: ns => usePlainCell n :: usePlainCells ns

end

mutual

/-- Overwrite the rate recorded in every dropout node of a graph with `q`,
leaving everything else (the topology and every other parameter) unchanged.
Two graphs are equal after `setDropoutRate 0` exactly when they differ at
most in dropout rates. -/
def setDropoutRate (q : ℚ) : Node → Node
  | .input s => .input s
  | .permute dims src => .permute dims (setDropoutRate q src)
  | .lstm u src => .lstm u (setDropoutRate q src)
  | .attentionLSTM u src => .attentionLSTM u (setDropoutRate q src)
  | .dropout _ src => .dropout q (setDropoutRate q src)
  | .conv1d f k d p ki src => .conv1d f k d p ki (setDropoutRate q src)
  | .batchNorm src => .batchNorm (setDropoutRate q src)
  | .activation a src => .activation a (setDropoutRate q src)
  | .squeezeExcite src => .squeezeExcite (setDropoutRate q src)
  | .globalAvgPool1d src => .globalAvgPool1d (setDropoutRate q src)
  | .concatenate srcs => .concatenate (setDropoutRates q srcs)

/-- `setDropoutRate` on each node of a list. -/
def setDropoutRates (q : ℚ) : List Node → List Node
  | [] => []
  | n :: ns => setDropoutRate q n :: setDropoutRates q ns

end

/-- Outcome of the optional-dependency check. -/
inductive DepCheckOutcome where
  | silent
  | warned (msg : String)
  | raised (msg : String)
  deriving Repr, DecidableEq

/-- Modelled from the spec: `_check_dl_dependencies` lives in
`sktime.utils.validation._dependencies`, which is not part of this source
tree.  Per the spec, when the optional deep-learning framework is present the
check passes silently; when it is absent, severity `"warning"` reports a
non-fatal warning while any other severity raises an error. -/
def check_dl_dependencies (severity : String) (tensorflow_present : Bool) :
    DepCheckOutcome :=
  if tensorflow_present then .silent
  else if severity = "warning" then
    .warned "tensorflow is required for deep learning functionality"
  else .raised "tensorflow is required for deep learning functionality"

/-- Importing the module runs `_check_dl_dependencies(severity="warning")` at
top level; this is the only dependency check the module performs. -/
def module_import_check (tensorflow_present : Bool) : DepCheckOutcome :=
  check_dl_dependencies "warning" tensorflow_present

/-- Whether a dependency-check outcome is fatal (an error raised rather than
a warning). -/
def DepCheckOutcome.isFatal : DepCheckOutcome → Bool
  | .raised _ => true
  | _ => false

/-- Calling `build_network` in an environment where the optional framework
may be absent.  The body performs no dependency check of its own (there is no
call to `_check_dl_dependencies` in it), but its first statement is
`from tensorflow import keras`: when the framework is absent that import
raises the framework's `ImportError`, which propagates to the caller before
any graph node is built. -/
def build_network_in_env (tensorflow_present : Bool) (self : MLSTMFCNNetwork)
    (input_shape : List Nat) : Except String (Option (Node × Node)) :=
  if tensorflow_present then .ok (build_network self input_shape)
  else .error "ImportError: No module named tensorflow"

/-! ## Evaluation lemmas -/

/-- A list of length at least three starts with three entries. -/
theorem exists_cons3_of_three_le {α : Type _} :
    ∀ {l : List α}, 3 ≤ l.length → ∃ a b c t, l = a :: b :: c :: t
  | a :: b :: c :: t, _ => ⟨a, b, c, t, rfl⟩
  | [], h => absurd h (by simp)
  | [a], h => absurd h (by simp)
  | [a, b], h => absurd h (by simp)

/-- When both hyperparameter sequences have at least three entries,
`build_network` succeeds and returns exactly this graph. -/
theorem build_network_cons (cfg : MLSTMFCNNetwork) (s : List Nat)
    {f0 f1 f2 k0 k1 k2 : Nat} {fr kr : List Nat}
    (hf : cfg.filter_sizes = f0 :: f1 :: f2 :: fr)
    (hk : cfg.kernel_sizes = k0 :: k1 :: k2 :: kr) :
    build_network cfg s = some (Node.input s, Node.concatenate
      [Node.dropout cfg.dropout
        (if cfg.attention
          then Node.attentionLSTM cfg.lstm_size (Node.permute [2, 1] (Node.input s))
          else Node.lstm cfg.lstm_size (Node.permute [2, 1] (Node.input s))),
       Node.globalAvgPool1d (Node.activation "relu" (Node.batchNorm
        (Node.conv1d f2 k2 cfg.dilation_rate "same" "he_uniform"
          (Node.squeezeExcite (Node.activation "relu" (Node.batchNorm
            (Node.conv1d f1 k1 cfg.dilation_rate "same" "he_uniform"
              (Node.squeezeExcite (Node.activation "relu" (Node.batchNorm
                (Node.conv1d f0 k0 cfg.dilation_rate "same" "he_uniform"
                  (Node.input s))))))))))))]) := by
  simp [build_network, hf, hk]

/-- When either hyperparameter sequence has fewer than three entries, one of
the subscripts in `build_network` is out of range and the build fails. -/
theorem build_network_none_of_short (cfg : MLSTMFCNNetwork) (s : List Nat)
    (h : cfg.filter_sizes.length < 3 ∨ cfg.kernel_sizes.length < 3) :
    build_network cfg s = none := by
  have h2 : cfg.filter_sizes[2]? = none ∨ cfg.kernel_sizes[2]? = none := by
    rcases h with h | h
    · exact Or.inl (List.getElem?_eq_none (by omega))
    · exact Or.inr (List.getElem?_eq_none (by omega))
  rcases h0 : cfg.filter_sizes[0]? with _ | f0 <;>
    rcases h1 : cfg.kernel_sizes[0]? with _ | k0 <;>
    rcases h2' : cfg.filter_sizes[1]? with _ | f1 <;>
    rcases h3 : cfg.kernel_sizes[1]? with _ | k1 <;>
    rcases h2 with h4 | h4 <;>
    simp [build_network, h0, h1, h2', h3, h4]

/-! ## Claims -/

/-- C1: for every valid `input_shape = (T, C)` with `T ≥ 1` and `C ≥ 1` and
every configuration (its `filter_sizes` and `kernel_sizes` having the required
length 3), `build_network` returns an output node whose feature-vector width
equals `lstm_size + filter_sizes[2]`; in particular, for
`input_shape = (128, 3)` with the default hyperparameters
(`lstm_size=5, filter_sizes=(64, 128, 64)`) the output feature width is 69. -/
theorem mlstmfcn_C1 :
    (∀ (cfg : MLSTMFCNNetwork) (T C : Nat), 1 ≤ T → 1 ≤ C →
      cfg.filter_sizes.length = 3 → cfg.kernel_sizes.length = 3 →
      ∃ inp out, build_network cfg [T, C] = some (inp, out) ∧
        outShape out = some [cfg.lstm_size + cfg.filter_sizes.getD 2 0]) ∧
    builtOutputShape defaultNetwork [128, 3] = some [69] := by
  constructor
  · intro cfg T C _hT _hC hf hk
    obtain ⟨f0, f1, f2, hf'⟩ := List.length_eq_three.mp hf
    obtain ⟨k0, k1, k2, hk'⟩ := List.length_eq_three.mp hk
    refine ⟨_, _, build_network_cons cfg [T, C] hf' hk', ?_⟩
    cases hA : cfg.attention <;>
      simp [outShape, outShapes, hf', hA, permuteShape, attentionCellShape,
        squeezeExciteShape, concatShapes, List.mapM.loop]
  · rfl

/-- Witness for C1 at `input_shape = (128, 3)` with the default
hyperparameters. -/
theorem mlstmfcn_C1_witness :
    ∃ inp out, build_network defaultNetwork [128, 3] = some (inp, out) ∧
      outShape out =
        some [defaultNetwork.lstm_size + defaultNetwork.filter_sizes.getD 2 0] :=
  mlstmfcn_C1.1 defaultNetwork 128 3 (by decide) (by decide) (by decide)
    (by decide)

/-- C2: the recurrent arm is, in order, a permutation of the input axes from
`(T, C)` to `(C, T)` (Keras `Permute((2, 1))`), then a single recurrent cell
(attention-augmented when `attention` is set, plain otherwise) of output width
`lstm_size`, then a dropout layer at rate `dropout`; its output is a
fixed-length vector (shape `[lstm_size]`). -/
theorem mlstmfcn_C2 (cfg : MLSTMFCNNetwork) (T C : Nat)
    (hf : cfg.filter_sizes.length = 3) (hk : cfg.kernel_sizes.length = 3) :
    ∃ inp rest, build_network cfg [T, C] = some (inp,
        Node.concatenate
          [Node.dropout cfg.dropout
            (if cfg.attention
              then Node.attentionLSTM cfg.lstm_size (Node.permute [2, 1] inp)
              else Node.lstm cfg.lstm_size (Node.permute [2, 1] inp)), rest]) ∧
      outShape (Node.permute [2, 1] inp) = some [C, T] ∧
      outShape (Node.dropout cfg.dropout
        (if cfg.attention
          then Node.attentionLSTM cfg.lstm_size (Node.permute [2, 1] inp)
          else Node.lstm cfg.lstm_size (Node.permute [2, 1] inp))) =
        some [cfg.lstm_size] := by
  obtain ⟨f0, f1, f2, hf'⟩ := List.length_eq_three.mp hf
  obtain ⟨k0, k1, k2, hk'⟩ := List.length_eq_three.mp hk
  refine ⟨Node.input [T, C], _, build_network_cons cfg [T, C] hf' hk', ?_, ?_⟩ <;>
    cases hA : cfg.attention <;>
      simp [outShape, hA, permuteShape, attentionCellShape, List.mapM.loop]

/-- Witness for C2 at `input_shape = (128, 3)` with the default
hyperparameters. -/
theorem mlstmfcn_C2_witness :
    ∃ inp rest, build_network defaultNetwork [128, 3] = some (inp,
        Node.concatenate
          [Node.dropout defaultNetwork.dropout
            (if defaultNetwork.attention
              then Node.attentionLSTM defaultNetwork.lstm_size (Node.permute [2, 1] inp)
              else Node.lstm defaultNetwork.lstm_size (Node.permute [2, 1] inp)),
           rest]) ∧
      outShape (Node.permute [2, 1] inp) = some [3, 128] ∧
      outShape (Node.dropout defaultNetwork.dropout
        (if defaultNetwork.attention
          then Node.attentionLSTM defaultNetwork.lstm_size (Node.permute [2, 1] inp)
          else Node.lstm defaultNetwork.lstm_size (Node.permute [2, 1] inp))) =
        some [defaultNetwork.lstm_size] :=
  mlstmfcn_C2 defaultNetwork 128 3 (by decide) (by decide)

/-- C3: in the convolutional arm, each of the three stages is a convolution
(`filter_sizes[i]` channels, `kernel_sizes[i]` width, dilation
`dilation_rate`, `"same"` padding, `"he_uniform"` initialization) followed by
batch normalization followed by ReLU; a squeeze-and-excite block follows
stage 1 and stage 2 but not stage 3, and global average pooling follows
stage 3. -/
theorem mlstmfcn_C3 (cfg : MLSTMFCNNetwork) (s : List Nat)
    (hf : cfg.filter_sizes.length = 3) (hk : cfg.kernel_sizes.length = 3) :
    ∃ inp recArm f0 f1 f2 k0 k1 k2,
      cfg.filter_sizes = [f0, f1, f2] ∧ cfg.kernel_sizes = [k0, k1, k2] ∧
      build_network cfg s = some (inp, Node.concatenate [recArm,
        Node.globalAvgPool1d (Node.activation "relu" (Node.batchNorm
          (Node.conv1d f2 k2 cfg.dilation_rate "same" "he_uniform"
            (Node.squeezeExcite (Node.activation "relu" (Node.batchNorm
              (Node.conv1d f1 k1 cfg.dilation_rate "same" "he_uniform"
                (Node.squeezeExcite (Node.activation "relu" (Node.batchNorm
                  (Node.conv1d f0 k0 cfg.dilation_rate "same" "he_uniform"
                    inp)))))))))))]) := by
  obtain ⟨f0, f1, f2, hf'⟩ := List.length_eq_three.mp hf
  obtain ⟨k0, k1, k2, hk'⟩ := List.length_eq_three.mp hk
  exact ⟨Node.input s, _, f0, f1, f2, k0, k1, k2, hf', hk',
    build_network_cons cfg s hf' hk'⟩

/-- Witness for C3 with the default hyperparameters. -/
theorem mlstmfcn_C3_witness :
    ∃ inp recArm f0 f1 f2 k0 k1 k2,
      defaultNetwork.filter_sizes = [f0, f1, f2] ∧
      defaultNetwork.kernel_sizes = [k0, k1, k2] ∧
      build_network defaultNetwork [128, 3] = some (inp, Node.concatenate [recArm,
        Node.globalAvgPool1d (Node.activation "relu" (Node.batchNorm
          (Node.conv1d f2 k2 defaultNetwork.dilation_rate "same" "he_uniform"
            (Node.squeezeExcite (Node.activation "relu" (Node.batchNorm
              (Node.conv1d f1 k1 defaultNetwork.dilation_rate "same" "he_uniform"
                (Node.squeezeExcite (Node.activation "relu" (Node.batchNorm
                  (Node.conv1d f0 k0 defaultNetwork.dilation_rate "same" "he_uniform"
                    inp)))))))))))]) :=
  mlstmfcn_C3 defaultNetwork [128, 3] (by decide) (by decide)

/-- C4: for every input shape and configuration, the graph built with
`attention = True` differs from the graph built with `attention = False` only
in the recurrent-cell primitive: replacing the attention cell by the plain
cell turns the one build into the other exactly, and the output shapes of the
two builds agree. -/
theorem mlstmfcn_C4 (cfg : MLSTMFCNNetwork) (s : List Nat) :
    (build_network { cfg with attention := true } s).map
        (fun p => (usePlainCell p.1, usePlainCell p.2))
      = build_network { cfg with attention := false } s ∧
    builtOutputShape { cfg with attention := true } s
      = builtOutputShape { cfg with attention := false } s := by
  rcases le_or_lt 3 cfg.filter_sizes.length with hf | hf
  · rcases le_or_lt 3 cfg.kernel_sizes.length with hk | hk
    · obtain ⟨f0, f1, f2, fr, hf'⟩ := exists_cons3_of_three_le hf
      obtain ⟨k0, k1, k2, kr, hk'⟩ := exists_cons3_of_three_le hk
      have h1 := build_network_cons { cfg with attention := true } s hf' hk'
      have h2 := build_network_cons { cfg with attention := false } s hf' hk'
      constructor
      · rw [h1, h2]
        simp [usePlainCell, usePlainCells]
      · simp only [builtOutputShape]
        rw [h1, h2]
        rcases hs1 : s[1]? with _ | a <;> rcases hs0 : s[0]? with _ | b <;>
          simp [outShape, outShapes, permuteShape, attentionCellShape,
            squeezeExciteShape, concatShapes, List.mapM.loop, hs1, hs0]
    · have h1 := build_network_none_of_short { cfg with attention := true } s
        (Or.inr hk)
      have h2 := build_network_none_of_short { cfg with attention := false } s
        (Or.inr hk)
      constructor <;> simp [builtOutputShape, h1, h2]
  · have h1 := build_network_none_of_short { cfg with attention := true } s
      (Or.inl hf)
    have h2 := build_network_none_of_short { cfg with attention := false } s
      (Or.inl hf)
    constructor <;> simp [builtOutputShape, h1, h2]

/-- A configuration whose `filter_sizes` and `kernel_sizes` have length 4
(all entries positive). -/
def fourSizesNetwork : MLSTMFCNNetwork :=
  MLSTMFCNNetwork.init 0 (4 / 5) false 2 [64, 128, 64, 32] [5, 3, 1, 1] 5

/-- C5 counterexample: the claim says construction fails for every sequence
of length different from 3, but with `filter_sizes` and `kernel_sizes` of
length 4 `build_network` succeeds (only indices 0, 1, 2 are read). -/
theorem mlstmfcn_C5_counterexample :
    fourSizesNetwork.filter_sizes.length = 4 ∧
    fourSizesNetwork.kernel_sizes.length = 4 ∧
    (build_network fourSizesNetwork [10, 2]).isSome = true := by
  refine ⟨by decide, by decide, ?_⟩
  rfl

/-- C5 as amended: for sequences of length exactly 3 construction succeeds;
when either sequence has length less than 3, construction fails with an
out-of-range subscript (the build returns `none`). -/
theorem mlstmfcn_C5_amended (cfg : MLSTMFCNNetwork) (s : List Nat) :
    (cfg.filter_sizes.length = 3 → cfg.kernel_sizes.length = 3 →
      (build_network cfg s).isSome = true) ∧
    (cfg.filter_sizes.length < 3 ∨ cfg.kernel_sizes.length < 3 →
      build_network cfg s = none) := by
  constructor
  · intro hf hk
    obtain ⟨f0, f1, f2, hf'⟩ := List.length_eq_three.mp hf
    obtain ⟨k0, k1, k2, hk'⟩ := List.length_eq_three.mp hk
    rw [build_network_cons cfg s hf' hk']
    rfl
  · exact build_network_none_of_short cfg s

/-- Witness for the amended C5: the default length-3 configuration builds,
and a configuration with a length-2 `filter_sizes` fails. -/
theorem mlstmfcn_C5_witness :
    (build_network defaultNetwork [10, 2]).isSome = true ∧
    build_network (MLSTMFCNNetwork.init 0 0 false 1 [8, 8] [3] 4) [10, 2] =
      none :=
  ⟨(mlstmfcn_C5_amended defaultNetwork [10, 2]).1 (by decide) (by decide),
   (mlstmfcn_C5_amended (MLSTMFCNNetwork.init 0 0 false 1 [8, 8] [3] 4)
      [10, 2]).2 (Or.inl (by decide))⟩

/-- C6: for any two dropout rates (including the boundary rate 0), the two
builds are identical graphs apart from the recorded rate (equal after
overwriting every dropout rate with 0), the output shapes agree, and the
rate recorded in a dropout node never affects any node's output shape. -/
theorem mlstmfcn_C6 (cfg : MLSTMFCNNetwork) (d₁ d₂ : ℚ) (s : List Nat) :
    (build_network { cfg with dropout := d₁ } s).map
        (fun p => (setDropoutRate 0 p.1, setDropoutRate 0 p.2))
      = (build_network { cfg with dropout := d₂ } s).map
        (fun p => (setDropoutRate 0 p.1, setDropoutRate 0 p.2)) ∧
    builtOutputShape { cfg with dropout := d₁ } s
      = builtOutputShape { cfg with dropout := d₂ } s ∧
    ∀ (r : ℚ) (n : Node), outShape (Node.dropout r n) = outShape n := by
  rcases le_or_lt 3 cfg.filter_sizes.length with hf | hf
  · rcases le_or_lt 3 cfg.kernel_sizes.length with hk | hk
    · obtain ⟨f0, f1, f2, fr, hf'⟩ := exists_cons3_of_three_le hf
      obtain ⟨k0, k1, k2, kr, hk'⟩ := exists_cons3_of_three_le hk
      have h1 := build_network_cons { cfg with dropout := d₁ } s hf' hk'
      have h2 := build_network_cons { cfg with dropout := d₂ } s hf' hk'
      refine ⟨?_, ?_, fun r n => rfl⟩
      · rw [h1, h2]
        cases hA : cfg.attention <;>
          simp [setDropoutRate, setDropoutRates, hA]
      · simp only [builtOutputShape]
        rw [h1, h2]
        cases hA : cfg.attention <;>
          simp [outShape, outShapes, permuteShape, attentionCellShape,
            squeezeExciteShape, concatShapes, List.mapM.loop, hA]
    · have h1 := build_network_none_of_short { cfg with dropout := d₁ } s
        (Or.inr hk)
      have h2 := build_network_none_of_short { cfg with dropout := d₂ } s
        (Or.inr hk)
      refine ⟨?_, ?_, fun r n => rfl⟩ <;> simp [builtOutputShape, h1, h2]
  · have h1 := build_network_none_of_short { cfg with dropout := d₁ } s
      (Or.inl hf)
    have h2 := build_network_none_of_short { cfg with dropout := d₂ } s
      (Or.inl hf)
    refine ⟨?_, ?_, fun r n => rfl⟩ <;> simp [builtOutputShape, h1, h2]

/-- C7: `__init__` sets each configuration field to the corresponding
argument, and `build_network` (as a method acting on the object) leaves the
object, hence every configuration field, unchanged. -/
theorem mlstmfcn_C7 :
    (∀ (r : Int) (d : ℚ) (a : Bool) (dr : Nat) (fs ks : List Nat) (ls : Nat),
      (MLSTMFCNNetwork.init r d a dr fs ks ls).random_state = r ∧
      (MLSTMFCNNetwork.init r d a dr fs ks ls).dropout = d ∧
      (MLSTMFCNNetwork.init r d a dr fs ks ls).attention = a ∧
      (MLSTMFCNNetwork.init r d a dr fs ks ls).dilation_rate = dr ∧
      (MLSTMFCNNetwork.init r d a dr fs ks ls).filter_sizes = fs ∧
      (MLSTMFCNNetwork.init r d a dr fs ks ls).kernel_sizes = ks ∧
      (MLSTMFCNNetwork.init r d a dr fs ks ls).lstm_size = ls) ∧
    ∀ (cfg : MLSTMFCNNetwork) (s : List Nat),
      (build_network_method cfg s).1 = cfg :=
  ⟨fun _ _ _ _ _ _ _ => ⟨rfl, rfl, rfl, rfl, rfl, rfl, rfl⟩, fun _ _ => rfl⟩

/-- C8: two configurations that differ only in `random_state` build identical
graphs — `random_state` is never read by `build_network`. -/
theorem mlstmfcn_C8 (cfg : MLSTMFCNNetwork) (r₁ r₂ : Int) (s : List Nat) :
    build_network { cfg with random_state := r₁ } s
      = build_network { cfg with random_state := r₂ } s := rfl

/-- C9 counterexample: the claim reads `build_network` as doing nothing
dependency-related (the spec: absence of the dependency is "not an error at
build time"), but the body's first statement `from tensorflow import keras`
raises the framework's `ImportError` at build time when the framework is
absent — concretely, the same default build that succeeds with the framework
present errors with it absent. -/
theorem mlstmfcn_C9_counterexample :
    build_network_in_env false defaultNetwork [128, 3]
      = Except.error "ImportError: No module named tensorflow" ∧
    build_network_in_env true defaultNetwork [128, 3]
      ≠ build_network_in_env false defaultNetwork [128, 3] := by
  refine ⟨rfl, ?_⟩
  intro h
  simp [build_network_in_env] at h

/-- C9 as amended: absence of the optional framework is reported by the
module-level check as a non-fatal warning at import time, never an error; and
`build_network` performs no dependency check of its own — with the framework
present it just builds the graph, and with the framework absent what surfaces
is the framework's own `ImportError` raised by `from tensorflow import
keras`, not a dependency-check outcome. -/
theorem mlstmfcn_C9_amended :
    (∀ present : Bool, (module_import_check present).isFatal = false) ∧
    (∃ msg, module_import_check false = DepCheckOutcome.warned msg) ∧
    (∀ (cfg : MLSTMFCNNetwork) (s : List Nat),
      build_network_in_env true cfg s = Except.ok (build_network cfg s)) ∧
    (∀ (cfg : MLSTMFCNNetwork) (s : List Nat),
      build_network_in_env false cfg s =
        Except.error "ImportError: No module named tensorflow") := by
  refine ⟨?_, ⟨_, rfl⟩, fun _ _ => rfl, fun _ _ => rfl⟩
  intro present
  cases present <;> rfl

/-- C10: `build_network` reads only indices 0, 1 and 2 of `filter_sizes` and
`kernel_sizes`: for sequences of length at least 3 the build succeeds and
equals the build with each sequence truncated to its first three entries. -/
theorem mlstmfcn_C10 (cfg : MLSTMFCNNetwork) (s : List Nat)
    (hf : 3 ≤ cfg.filter_sizes.length) (hk : 3 ≤ cfg.kernel_sizes.length) :
    (build_network cfg s).isSome = true ∧
    build_network cfg s =
      build_network
        { cfg with filter_sizes := cfg.filter_sizes.take 3,
                   kernel_sizes := cfg.kernel_sizes.take 3 } s := by
  obtain ⟨f0, f1, f2, fr, hf'⟩ := exists_cons3_of_three_le hf
  obtain ⟨k0, k1, k2, kr, hk'⟩ := exists_cons3_of_three_le hk
  have h1 := build_network_cons cfg s hf' hk'
  have h2 := build_network_cons
    { cfg with filter_sizes := cfg.filter_sizes.take 3,
               kernel_sizes := cfg.kernel_sizes.take 3 } s
    (show cfg.filter_sizes.take 3 = f0 :: f1 :: f2 :: [] by rw [hf']; rfl)
    (show cfg.kernel_sizes.take 3 = k0 :: k1 :: k2 :: [] by rw [hk']; rfl)
  constructor
  · rw [h1]
    rfl
  · rw [h1, h2]

/-- Witness for C10: a configuration with length-4 sequences builds, and
only the first three entries matter. -/
theorem mlstmfcn_C10_witness :
    (build_network fourSizesNetwork [10, 2]).isSome = true ∧
    build_network fourSizesNetwork [10, 2] =
      build_network
        { fourSizesNetwork with
            filter_sizes := fourSizesNetwork.filter_sizes.take 3,
            kernel_sizes := fourSizesNetwork.kernel_sizes.take 3 } [10, 2] :=
  mlstmfcn_C10 fourSizesNetwork [10, 2] (by decide) (by decide)

end MLSTMFCN
